import Mathlib

/-!
Shallow embedding of the `react-native-swipe-actions` package.

Sources embedded:
- `src/domain/entities/SwipeAction.ts` — action types, presets, defaults,
  `SwipeActionUtils` (validateAction / getLabel / getIcon / getColorKey /
  getHapticsIntensity).
- `SwipeActionButton` component — background-color computation and the
  `handlePress` activation sequence (haptics, then handler).
- `SwipeableItem` component — the props handed to the gesture collaborator
  (`Swipeable`) and the left/right action rendering callbacks.

JavaScript optional string fields are `Option String`; JS truthiness of a
string (present and non-empty) is `strTruthy`. A handler is represented by
a numeric identifier (`Option Nat` for the `onPress` field): the embedding
tracks which handler a descriptor carries and when it is invoked, not what
it computes.
-/

namespace SwipeActions

/-- Pre-built swipe action types (`SwipeActionType` in SwipeAction.ts). -/
inductive SwipeActionType
  | delete
  | archive
  | edit
  | share
  | favorite
  | more
  | custom
deriving DecidableEq

/-- Haptic intensity literals `'Light' | 'Medium' | 'Heavy'`. -/
inductive HapticsIntensity
  | Light
  | Medium
  | Heavy
deriving DecidableEq

/-- `SwipeActionConfig`: one action descriptor. `label`/`icon`/`color` are the
optional visual overrides, `onPress` the handler (modelled by an identifier;
`none` = absent), `enableHaptics` the optional haptics flag (default true). -/
structure SwipeActionConfig where
  type : SwipeActionType
  label : Option String
  icon : Option String
  color : Option String
  onPress : Option Nat
  enableHaptics : Option Bool
deriving DecidableEq

/-- JS truthiness of an optional string: present and non-empty. -/
def strTruthy : Option String → Bool
  | none => false
  | some s => s != ""

/-- JS `s || fallback` for strings: `s` unless it is empty. -/
def jsOrStr (s fallback : String) : String :=
  if s == "" then fallback else s

/-- One entry of `ACTION_PRESETS`. -/
structure PresetEntry where
  label : String
  icon : String
  colorKey : String
  hapticsIntensity : HapticsIntensity
deriving DecidableEq

/-- `SwipeActionUtils.getPreset` over the `ACTION_PRESETS` table:
`null` for `custom`, the table entry otherwise. -/
def getPreset : SwipeActionType → Option PresetEntry
  | .custom => none
  | .delete => some ⟨"Delete", "Trash2", "error", .Heavy⟩
  | .archive => some ⟨"Archive", "Archive", "success", .Medium⟩
  | .edit => some ⟨"Edit", "Pencil", "primary", .Light⟩
  | .share => some ⟨"Share", "Share2", "secondary", .Light⟩
  | .favorite => some ⟨"Favorite", "Heart", "warning", .Light⟩
  | .more => some ⟨"More", "MoveHorizontal", "textSecondary", .Light⟩

/-- Shape of `DEFAULT_SWIPE_CONFIG`. -/
structure DefaultSwipeConfig where
  threshold : Nat
  disableOvershoot : Bool
  friction : Nat
deriving DecidableEq

/-- `DEFAULT_SWIPE_CONFIG = { threshold: 80, disableOvershoot: true, friction: 2 }`. -/
def DEFAULT_SWIPE_CONFIG : DefaultSwipeConfig :=
  ⟨80, true, 2⟩

/-- `SwipeActionUtils.validateAction`: false without an `onPress` handler;
a `custom` action additionally needs truthy `label`, `icon` and `color`. -/
def validateAction (a : SwipeActionConfig) : Bool :=
  if a.onPress.isNone then false
  else if a.type = .custom then
    strTruthy a.label && strTruthy a.icon && strTruthy a.color
  else true

/-- `SwipeActionUtils.getLabel`: explicit truthy label, else
`preset?.label || 'Action'`. -/
def getLabel (a : SwipeActionConfig) : String :=
  if strTruthy a.label then a.label.getD ""
  else
    match getPreset a.type with
    | some p => jsOrStr p.label "Action"
    | none => "Action"

/-- `SwipeActionUtils.getIcon`: explicit truthy icon, else
`preset?.icon || 'MoveHorizontal'`. -/
def getIcon (a : SwipeActionConfig) : String :=
  if strTruthy a.icon then a.icon.getD ""
  else
    match getPreset a.type with
    | some p => jsOrStr p.icon "MoveHorizontal"
    | none => "MoveHorizontal"

/-- `SwipeActionUtils.getColorKey`: `null` when an explicit color is set
(signalling the custom color is used), else `preset?.colorKey || null`. -/
def getColorKey (a : SwipeActionConfig) : Option String :=
  if strTruthy a.color then none
  else
    match getPreset a.type with
    | some p => if p.colorKey == "" then none else some p.colorKey
    | none => none

/-- `SwipeActionUtils.getHapticsIntensity`: `preset?.hapticsIntensity || 'Light'`. -/
def getHapticsIntensity (a : SwipeActionConfig) : HapticsIntensity :=
  match getPreset a.type with
  | some p => p.hapticsIntensity
  | none => .Light

/-- Theme tokens consumed by `SwipeActionButton`: semantic color keys
resolved to concrete color values. -/
structure ThemeTokens where
  colors : String → String

/-- `action.enableHaptics !== false` in `SwipeActionButton` (default true). -/
def hapticsOn (a : SwipeActionConfig) : Bool :=
  a.enableHaptics != some false

/-- `SwipeActionButton` background color:
`customColor || (colorKey ? tokens.colors[colorKey] : tokens.colors.primary)`. -/
def buttonBackgroundColor (tk : ThemeTokens) (a : SwipeActionConfig) : String :=
  if strTruthy a.color then a.color.getD ""
  else
    match getColorKey a with
    | some k => if k == "" then tk.colors "primary" else tk.colors k
    | none => tk.colors "primary"

/-- The visual attributes `SwipeActionButton` renders for one action. -/
structure RenderedButton where
  label : String
  icon : String
  backgroundColor : String
deriving DecidableEq

/-- One rendered `SwipeActionButton` (label, icon, background). -/
def renderButton (tk : ThemeTokens) (a : SwipeActionConfig) : RenderedButton :=
  ⟨getLabel a, getIcon a, buttonBackgroundColor tk a⟩

/-- External calls observable during `handlePress`. -/
inductive PressEvent
  | hapticImpact (i : HapticsIntensity)
  | handlerInvoke
deriving DecidableEq

/-- Outcome of the haptic collaborator's `impact` promise. -/
inductive HapticOutcome
  | ok
  | err
deriving DecidableEq

/-- Number of `handlerInvoke` events in an event list. -/
def countHandlerInvokes : List PressEvent → Nat
  | [] => 0
  | .handlerInvoke :: rest => countHandlerInvokes rest + 1
  | .hapticImpact _ :: rest => countHandlerInvokes rest

/-- One run of `SwipeActionButton.handlePress`, given the haptic
collaborator's outcome: the external calls issued, and whether the async
function's promise resolves (`ok`) or rejects (`error`). The body awaits
`HapticService.impact` with no try/catch, so a haptic rejection propagates
and `action.onPress()` is never reached in that case; the three-way
`if intensity === ...` chain picks the impact argument. -/
def handlePressRun (a : SwipeActionConfig) (res : HapticOutcome) :
    List PressEvent × Except Unit Unit :=
  if hapticsOn a then
    let i := getHapticsIntensity a
    let ev : PressEvent :=
      if i = .Light then .hapticImpact .Light
      else if i = .Medium then .hapticImpact .Medium
      else .hapticImpact .Heavy
    match res with
    | .ok => ([ev, .handlerInvoke], Except.ok ())
    | .err => ([ev], Except.error ())
  else ([.handlerInvoke], Except.ok ())

/-- Progress of one in-flight `handlePress` invocation, at the granularity
of its `await` points (haptics assumed to resolve). -/
inductive TaskPhase
  | awaitingHaptic
  | awaitingHandler
  | done
deriving DecidableEq

/-- Interleaving state of one button: the in-flight `handlePress` tasks (in
start order) and the log of external calls. `SwipeActionButton` keeps no
other state — it has no pending flag, ref or state hook. -/
structure ButtonRun where
  tasks : List TaskPhase
  log : List PressEvent
deriving DecidableEq

/-- Scheduler events: a press of the button, or the completion of the
await task `i` is currently suspended on. -/
inductive BtnEvent
  | press
  | resume (i : Nat)
deriving DecidableEq

/-- Synchronous part of `handlePress` up to its first `await`: with haptics
on it issues the impact call and suspends on it; with haptics off it calls
`action.onPress()` and suspends on the handler. -/
def pressStart (a : SwipeActionConfig) : TaskPhase × List PressEvent :=
  if hapticsOn a then (.awaitingHaptic, [.hapticImpact (getHapticsIntensity a)])
  else (.awaitingHandler, [.handlerInvoke])

/-- Resumption of a suspended `handlePress` task: after the haptic await it
calls `action.onPress()` and suspends on it; after the handler await it is
finished. -/
def resumeTask : TaskPhase → TaskPhase × List PressEvent
  | .awaitingHaptic => (.awaitingHandler, [.handlerInvoke])
  | .awaitingHandler => (.done, [])
  | .done => (.done, [])

/-- One scheduler step on a button. A press unconditionally starts a fresh
`handlePress` task — the component consults no shared state, so in-flight
tasks cannot influence it. -/
def btnStep (a : SwipeActionConfig) (s : ButtonRun) : BtnEvent → ButtonRun
  | .press =>
    ⟨s.tasks ++ [(pressStart a).1], s.log ++ (pressStart a).2⟩
  | .resume i =>
    match s.tasks.get? i with
    | some ph => ⟨s.tasks.set i (resumeTask ph).1, s.log ++ (resumeTask ph).2⟩
    | none => s

/-- Run a button from the initial state through a list of scheduler events. -/
def btnRun (a : SwipeActionConfig) (evs : List BtnEvent) : ButtonRun :=
  evs.foldl (btnStep a) ⟨[], []⟩

/-- `renderLeftActions` / `renderRightActions` body in `SwipeableItem`:
`null` for an empty action list, otherwise one `SwipeActionButton` per
action, in configured order. -/
def renderSide (tk : ThemeTokens) (actions : List SwipeActionConfig) :
    Option (List RenderedButton) :=
  if actions.length = 0 then none
  else some (actions.map (renderButton tk))

/-- Caller-facing `SwipeableItem` props (each optional, defaulted at
destructuring). -/
structure SwipeableItemInput where
  leftActions : Option (List SwipeActionConfig)
  rightActions : Option (List SwipeActionConfig)
  threshold : Option Nat
  disableOvershoot : Option Bool
  friction : Option Nat

/-- The props `SwipeableItem` hands to the gesture collaborator
(`Swipeable`). A render callback is carried as the action list it would
render; `none` models passing `undefined`
(`renderRightActions={rightActions.length > 0 ? renderRightActions : undefined}`). -/
structure SwipeableProps where
  friction : Nat
  overshootLeft : Bool
  overshootRight : Bool
  leftThreshold : Nat
  rightThreshold : Nat
  renderLeftActions : Option (List SwipeActionConfig)
  renderRightActions : Option (List SwipeActionConfig)

/-- `SwipeableItem` body: defaults merged at destructuring, then the
`Swipeable` element's props. -/
def swipeableProps (inp : SwipeableItemInput) : SwipeableProps :=
  let leftActions := inp.leftActions.getD []
  let rightActions := inp.rightActions.getD []
  let threshold := inp.threshold.getD DEFAULT_SWIPE_CONFIG.threshold
  let disableOvershoot := inp.disableOvershoot.getD DEFAULT_SWIPE_CONFIG.disableOvershoot
  let friction := inp.friction.getD DEFAULT_SWIPE_CONFIG.friction
  { friction := friction
    overshootLeft := !disableOvershoot
    overshootRight := !disableOvershoot
    leftThreshold := threshold
    rightThreshold := threshold
    renderLeftActions := if leftActions.length > 0 then some leftActions else none
    renderRightActions := if rightActions.length > 0 then some rightActions else none }

/-- A side of the row. -/
inductive Side
  | left
  | right
deriving DecidableEq

/-- Row open/closed state owned by the gesture collaborator for one row. -/
inductive RowSt
  | closed
  | openLeft
  | openRight
deriving DecidableEq

/-- Discrete gesture outcomes: a drag of some magnitude committing toward a
side, or the row settling closed. -/
inductive GestureEvent
  | commitOpen (s : Side) (drag : Nat)
  | settleClosed
deriving DecidableEq

/-- Modelled from the spec: the gesture collaborator (`Swipeable` from
react-native-gesture-handler, external to this repository) opens a side
only when that side's render callback was supplied; with the callback
absent, a drag toward that side of any magnitude leaves the state
unchanged (spec sections 4.3 and 6). -/
def rowStep (p : SwipeableProps) (st : RowSt) : GestureEvent → RowSt
  | .commitOpen .left _ => if p.renderLeftActions.isSome then .openLeft else st
  | .commitOpen .right _ => if p.renderRightActions.isSome then .openRight else st
  | .settleClosed => .closed

/-- Run a row from `closed` through a list of gesture events. -/
def rowRun (p : SwipeableProps) (evs : List GestureEvent) : RowSt :=
  evs.foldl (rowStep p) .closed

/-- A `delete` preset descriptor with no overrides (handler id 0). -/
def deleteActionCfg : SwipeActionConfig :=
  ⟨.delete, none, none, none, some 0, none⟩

/-- A `delete` preset descriptor with only an explicit color. -/
def deleteWithColor : SwipeActionConfig :=
  ⟨.delete, none, none, some "#00FF00", some 0, none⟩

/-- The spec scenario's custom descriptor
`{type: custom, label: "Block", icon: ban, color: "#FF0000", handler: h}`. -/
def blockAction : SwipeActionConfig :=
  ⟨.custom, some "Block", some "ban", some "#FF0000", some 7, none⟩

/-- A custom descriptor with no visual overrides (fails validation). -/
def invalidCustom : SwipeActionConfig :=
  ⟨.custom, none, none, none, some 0, none⟩

/-- Concrete theme for counterexamples: key `k` resolves to `"#" ++ k`. -/
def testTokens : ThemeTokens :=
  ⟨fun k => String.append "#" k⟩

/-- A double tap: two presses both issued before the first task finishes,
then all awaits resumed to completion. -/
def doubleTapRun : ButtonRun :=
  btnRun deleteActionCfg [.press, .press, .resume 0, .resume 1, .resume 0, .resume 1]

/-- Every preset-table entry has non-empty label, icon and color key. -/
theorem getPreset_fields (t : SwipeActionType) (p : PresetEntry)
    (h : getPreset t = some p) :
    p.label ≠ "" ∧ p.icon ≠ "" ∧ p.colorKey ≠ "" := by
  cases t <;> simp [getPreset] at h <;> simp [← h]

/-- C3: `validateAction a` is true iff the handler is present and either the
type is not `custom` or all three of label, icon, color are present and
non-empty; equivalently it is false exactly when the handler is absent or
the type is `custom` with a missing or empty visual override. -/
theorem C3_validate_iff (a : SwipeActionConfig) :
    validateAction a = true ↔
      (a.onPress.isSome = true ∧
        (a.type ≠ .custom ∨
          (strTruthy a.label = true ∧ strTruthy a.icon = true ∧
            strTruthy a.color = true))) := by
  cases h : a.onPress <;> cases ht : a.type <;>
    simp [validateAction, h, ht, and_assoc]

/-- C7: a preset `delete` descriptor with no overrides resolves to label
"Delete", icon "Trash2", color key "error" and Heavy haptics; the custom
`Block` descriptor resolves every attribute to its explicit value (label
"Block", icon "ban", background exactly the explicit "#FF0000", handler 7)
with no preset lookup performed (`getPreset custom = none`). -/
theorem C7_scenario :
    getLabel deleteActionCfg = "Delete" ∧
    getIcon deleteActionCfg = "Trash2" ∧
    getColorKey deleteActionCfg = some "error" ∧
    getHapticsIntensity deleteActionCfg = .Heavy ∧
    getLabel blockAction = "Block" ∧
    getIcon blockAction = "ban" ∧
    getColorKey blockAction = none ∧
    buttonBackgroundColor testTokens blockAction = "#FF0000" ∧
    blockAction.onPress = some 7 ∧
    getPreset blockAction.type = none := by
  decide

/-- C9: a row with no explicit configuration uses threshold 80, overshoot
disabled and friction 2; and for every configuration the gesture
collaborator receives `overshootLeft = overshootRight = !disableOvershoot`
and `leftThreshold = rightThreshold = threshold`. -/
theorem C9_defaults_and_mapping (inp : SwipeableItemInput) :
    DEFAULT_SWIPE_CONFIG = ⟨80, true, 2⟩ ∧
    (swipeableProps ⟨none, none, none, none, none⟩).leftThreshold = 80 ∧
    (swipeableProps ⟨none, none, none, none, none⟩).rightThreshold = 80 ∧
    (swipeableProps ⟨none, none, none, none, none⟩).friction = 2 ∧
    (swipeableProps ⟨none, none, none, none, none⟩).overshootLeft = false ∧
    (swipeableProps ⟨none, none, none, none, none⟩).overshootRight = false ∧
    (swipeableProps inp).overshootLeft = !(inp.disableOvershoot.getD true) ∧
    (swipeableProps inp).overshootRight = !(inp.disableOvershoot.getD true) ∧
    (swipeableProps inp).leftThreshold = inp.threshold.getD 80 ∧
    (swipeableProps inp).rightThreshold = inp.threshold.getD 80 := by
  simp [swipeableProps, DEFAULT_SWIPE_CONFIG]

/-- C10: the resolved haptic intensity depends only on the descriptor's
type: equal types give equal intensities, a non-custom type yields its
preset intensity, and a custom descriptor always resolves to Light (so it
can never produce Heavy haptics) — the descriptor has no intensity
override field for the explicit-override step to consult. -/
theorem C10_intensity_only_type (a b : SwipeActionConfig) :
    (a.type = b.type → getHapticsIntensity a = getHapticsIntensity b) ∧
    (∀ p, getPreset a.type = some p → getHapticsIntensity a = p.hapticsIntensity) ∧
    (a.type = .custom → getHapticsIntensity a = .Light) ∧
    (a.type = .custom → getHapticsIntensity a ≠ .Heavy) := by
  refine ⟨fun h => ?_, fun p hp => ?_, fun h => ?_, fun h => ?_⟩
  · simp [getHapticsIntensity, h]
  · simp [getHapticsIntensity, hp]
  · simp [getHapticsIntensity, h, getPreset]
  · simp [getHapticsIntensity, h, getPreset]

/-- Witness for C10 at concrete inputs: two `custom` descriptors with
different overrides resolve to the same, Light, intensity. -/
theorem C10_witness :
    getHapticsIntensity blockAction = getHapticsIntensity invalidCustom ∧
    getHapticsIntensity blockAction = .Light ∧
    getHapticsIntensity blockAction ≠ .Heavy :=
  ⟨(C10_intensity_only_type blockAction invalidCustom).1 rfl,
   (C10_intensity_only_type blockAction invalidCustom).2.2.1 rfl,
   (C10_intensity_only_type blockAction invalidCustom).2.2.2 rfl⟩

/-- C1: each visual attribute resolves independently with precedence
explicit truthy value, then preset value for the type, then hard fallback
(label "Action", icon "MoveHorizontal"); `getColorKey` returns `none` to
signal an explicit color; and a preset `delete` descriptor with only an
explicit color keeps the preset label, icon and Heavy haptic intensity
while the background uses the caller's color. -/
theorem C1_resolution_precedence (a : SwipeActionConfig) :
    (∀ s, a.label = some s → s ≠ "" → getLabel a = s) ∧
    (∀ p, strTruthy a.label = false → getPreset a.type = some p →
      getLabel a = p.label) ∧
    (strTruthy a.label = false → getPreset a.type = none →
      getLabel a = "Action") ∧
    (∀ s, a.icon = some s → s ≠ "" → getIcon a = s) ∧
    (∀ p, strTruthy a.icon = false → getPreset a.type = some p →
      getIcon a = p.icon) ∧
    (strTruthy a.icon = false → getPreset a.type = none →
      getIcon a = "MoveHorizontal") ∧
    (strTruthy a.color = true → getColorKey a = none) ∧
    (∀ p, strTruthy a.color = false → getPreset a.type = some p →
      getColorKey a = some p.colorKey) ∧
    (strTruthy a.color = false → getPreset a.type = none →
      getColorKey a = none) ∧
    (∀ tk, strTruthy a.color = true →
      buttonBackgroundColor tk a = a.color.getD "") ∧
    (a.type = .delete → a.label = none → a.icon = none →
      strTruthy a.color = true →
      getLabel a = "Delete" ∧ getIcon a = "Trash2" ∧
      getHapticsIntensity a = .Heavy ∧ getColorKey a = none) := by
  refine ⟨fun s hs hne => ?_, fun p hf hp => ?_, fun hf hn => ?_,
    fun s hs hne => ?_, fun p hf hp => ?_, fun hf hn => ?_,
    fun hc => ?_, fun p hf hp => ?_, fun hf hn => ?_,
    fun tk hc => ?_, fun ht hl hi hc => ?_⟩
  · simp [getLabel, strTruthy, hs, hne]
  · simp [getLabel, hf, hp, jsOrStr, (getPreset_fields a.type p hp).1]
  · simp [getLabel, hf, hn]
  · simp [getIcon, strTruthy, hs, hne]
  · simp [getIcon, hf, hp, jsOrStr, (getPreset_fields a.type p hp).2.1]
  · simp [getIcon, hf, hn]
  · simp [getColorKey, hc]
  · simp [getColorKey, hf, hp, (getPreset_fields a.type p hp).2.2]
  · simp [getColorKey, hf, hn]
  · simp [buttonBackgroundColor, hc]
  · cases hco : a.color with
    | none => rw [hco] at hc; simp [strTruthy] at hc
    | some c =>
      rw [hco] at hc
      simp [strTruthy] at hc
      simp [getLabel, getIcon, getColorKey, getHapticsIntensity, getPreset,
        strTruthy, jsOrStr, ht, hl, hi, hco, hc]

/-- Witness for C1: a `delete` descriptor carrying only an explicit color
resolves to the preset label, icon and Heavy intensity, with `getColorKey`
signalling the explicit color. -/
theorem C1_witness :
    getLabel deleteWithColor = "Delete" ∧
    getIcon deleteWithColor = "Trash2" ∧
    getHapticsIntensity deleteWithColor = HapticsIntensity.Heavy ∧
    getColorKey deleteWithColor = none := by
  have h := C1_resolution_precedence deleteWithColor
  exact h.2.2.2.2.2.2.2.2.2.2 rfl rfl rfl (by decide)

/-- Every `handlePress` run whose haptic request resolves invokes the
handler exactly once and resolves. -/
theorem handlePress_ok_invokes_once (a : SwipeActionConfig) :
    countHandlerInvokes (handlePressRun a .ok).1 = 1 ∧
    (handlePressRun a .ok).2 = Except.ok () := by
  by_cases h : hapticsOn a
  · cases hi : getHapticsIntensity a <;>
      simp [handlePressRun, h, hi, countHandlerInvokes]
  · simp [handlePressRun, h, countHandlerInvokes]

/-- C6: on a successful activation, with haptics not disabled the run
issues exactly one haptic request at the resolved intensity followed by
the single handler invocation; with haptics disabled it issues no haptic
request and still invokes the handler exactly once; an absent
`enableHaptics` flag means haptics are on (default true). -/
theorem C6_haptics_then_handler (a : SwipeActionConfig) :
    (handlePressRun a .ok).2 = Except.ok () ∧
    countHandlerInvokes (handlePressRun a .ok).1 = 1 ∧
    (hapticsOn a = true →
      (handlePressRun a .ok).1 =
        [.hapticImpact (getHapticsIntensity a), .handlerInvoke]) ∧
    (hapticsOn a = false → (handlePressRun a .ok).1 = [.handlerInvoke]) ∧
    (a.enableHaptics = none → hapticsOn a = true) := by
  refine ⟨(handlePress_ok_invokes_once a).2, (handlePress_ok_invokes_once a).1,
    fun h => ?_, fun h => ?_, fun h => ?_⟩
  · cases hi : getHapticsIntensity a <;> simp [handlePressRun, h, hi]
  · simp [handlePressRun, h]
  · simp [hapticsOn, h]

/-- Witness for C6: the plain `delete` action issues one Heavy impact and
then its single handler invocation. -/
theorem C6_witness :
    (handlePressRun deleteActionCfg .ok).1 =
      [PressEvent.hapticImpact (getHapticsIntensity deleteActionCfg),
        PressEvent.handlerInvoke] ∧
    countHandlerInvokes (handlePressRun deleteActionCfg .ok).1 = 1 :=
  ⟨(C6_haptics_then_handler deleteActionCfg).2.2.1 (by decide),
   (C6_haptics_then_handler deleteActionCfg).2.1⟩

/-- C5 counterexample: for the plain `delete` action (haptics on), a
rejected haptic impact makes `handlePress` itself reject and the handler
is never invoked — the haptic failure both blocks the activation and
propagates, contrary to the claim. -/
theorem C5_counterexample :
    hapticsOn deleteActionCfg = true ∧
    (handlePressRun deleteActionCfg .err).2 = Except.error () ∧
    countHandlerInvokes (handlePressRun deleteActionCfg .err).1 = 0 :=
  ⟨rfl, rfl, rfl⟩

/-- C5 amended: for every action with haptics enabled, a rejection of the
haptic impact aborts the activation — the returned promise rejects with
the propagated error and the handler is not invoked at all. -/
theorem C5_haptic_failure_blocks (a : SwipeActionConfig)
    (h : hapticsOn a = true) :
    (handlePressRun a .err).2 = Except.error () ∧
    countHandlerInvokes (handlePressRun a .err).1 = 0 := by
  cases hi : getHapticsIntensity a <;>
    simp [handlePressRun, h, hi, countHandlerInvokes]

/-- Witness for the amended C5 at the `Block` custom action. -/
theorem C5_witness :
    (handlePressRun blockAction .err).2 = Except.error () ∧
    countHandlerInvokes (handlePressRun blockAction .err).1 = 0 :=
  C5_haptic_failure_blocks blockAction (by decide)

/-- C2 counterexample: after one press of the `delete` button the first
`handlePress` task is still in flight (`awaitingHaptic`), yet a double tap
— two presses issued before the first task finishes, then all awaits
completed — invokes the handler twice, not once as the claim states. -/
theorem C2_counterexample :
    (btnRun deleteActionCfg [.press]).tasks = [TaskPhase.awaitingHaptic] ∧
    countHandlerInvokes doubleTapRun.log = 2 ∧
    countHandlerInvokes doubleTapRun.log ≠ 1 := by
  decide

/-- C2 amended: `SwipeActionButton` keeps no pending state, so a press
always starts a fresh `handlePress` task regardless of in-flight tasks,
and two activations issued before the first completes yield two handler
invocations once both tasks run to completion. -/
theorem C2_no_pending_state (a : SwipeActionConfig) (s : ButtonRun) :
    (btnStep a s .press).tasks = s.tasks ++ [(pressStart a).1] ∧
    (btnStep a s .press).log = s.log ++ (pressStart a).2 ∧
    countHandlerInvokes
      (btnRun a [.press, .press, .resume 0, .resume 1,
        .resume 0, .resume 1]).log = 2 := by
  refine ⟨rfl, rfl, ?_⟩
  by_cases h : hapticsOn a
  · simp [btnRun, btnStep, pressStart, resumeTask, h, countHandlerInvokes]
  · simp [btnRun, btnStep, pressStart, resumeTask, h, countHandlerInvokes]

/-- Witness for the amended C2 at the `Block` custom action and a
non-empty starting state. -/
theorem C2_witness :
    (btnStep blockAction ⟨[TaskPhase.awaitingHandler], []⟩ .press).tasks =
      [TaskPhase.awaitingHandler] ++ [(pressStart blockAction).1] ∧
    countHandlerInvokes
      (btnRun blockAction [.press, .press, .resume 0, .resume 1,
        .resume 0, .resume 1]).log = 2 :=
  ⟨(C2_no_pending_state blockAction ⟨[TaskPhase.awaitingHandler], []⟩).1,
   (C2_no_pending_state blockAction ⟨[TaskPhase.awaitingHandler], []⟩).2.2⟩

/-- C4 counterexample: a `custom` descriptor with no label, icon or color
fails validation, yet the render path still renders it — with the fallback
label "Action", the generic icon, and the theme's primary color silently
substituted as background — and its activation still runs the handler;
no error is surfaced anywhere on this path. -/
theorem C4_counterexample :
    validateAction invalidCustom = false ∧
    renderSide testTokens [invalidCustom] =
      some [⟨"Action", "MoveHorizontal", "#primary"⟩] ∧
    buttonBackgroundColor testTokens invalidCustom = "#primary" ∧
    countHandlerInvokes (handlePressRun invalidCustom .ok).1 = 1 := by
  decide

/-- C4 amended: the render and activation paths never consult
`validateAction` — a side renders iff its action list is non-empty, a
`custom` descriptor without a truthy color is rendered with the theme's
primary color substituted as background, and an invalid descriptor's
activation still invokes its handler. -/
theorem C4_no_validation_on_render (tk : ThemeTokens) (a : SwipeActionConfig)
    (actions : List SwipeActionConfig) :
    (renderSide tk actions = none ↔ actions = []) ∧
    (a.type = .custom → strTruthy a.color = false →
      buttonBackgroundColor tk a = tk.colors "primary") ∧
    (validateAction a = false →
      countHandlerInvokes (handlePressRun a .ok).1 = 1) := by
  refine ⟨?_, fun h1 h2 => ?_, fun _ => (handlePress_ok_invokes_once a).1⟩
  · by_cases hl : actions.length = 0
    · simp [renderSide, hl, List.length_eq_zero.mp hl]
    · simp [renderSide, hl]
      intro he
      exact hl (by simp [he])
  · simp [buttonBackgroundColor, h2, getColorKey, h1, getPreset]

/-- Witness for the amended C4 at the invalid custom descriptor. -/
theorem C4_witness :
    buttonBackgroundColor testTokens invalidCustom =
      testTokens.colors "primary" ∧
    countHandlerInvokes (handlePressRun invalidCustom .ok).1 = 1 :=
  ⟨(C4_no_validation_on_render testTokens invalidCustom []).2.1 rfl (by decide),
   (C4_no_validation_on_render testTokens invalidCustom []).2.2 (by decide)⟩

/-- From a state other than `openRight`, no event sequence can reach
`openRight` when the right render callback is absent. -/
theorem rowRun_not_openRight_aux (p : SwipeableProps)
    (hp : p.renderRightActions = none) :
    ∀ (evs : List GestureEvent) (st : RowSt), st ≠ RowSt.openRight →
      evs.foldl (rowStep p) st ≠ RowSt.openRight := by
  intro evs
  induction evs with
  | nil => intro st h; simpa using h
  | cons e rest ih =>
    intro st h
    apply ih
    cases e with
    | commitOpen s d =>
      cases s
      · simp only [rowStep]
        split
        · simp
        · exact h
      · simp only [rowStep, hp, Option.isSome_none, Bool.false_eq_true,
          if_false]
        exact h
    | settleClosed => simp [rowStep]

/-- C8: when the configured right action list is empty, `SwipeableItem`
passes no right render callback to the gesture collaborator, and
consequently no gesture sequence — whatever the drag magnitudes — can
bring the row into the open-right state. -/
theorem C8_empty_right_never_open (inp : SwipeableItemInput)
    (h : inp.rightActions.getD [] = []) (evs : List GestureEvent) :
    (swipeableProps inp).renderRightActions = none ∧
    rowRun (swipeableProps inp) evs ≠ RowSt.openRight := by
  have hp : (swipeableProps inp).renderRightActions = none := by
    simp [swipeableProps, h]
  exact ⟨hp, rowRun_not_openRight_aux _ hp evs .closed (by simp)⟩

/-- Witness for C8: with no right actions configured, even huge committed
drags toward the right leave the row out of the open-right state. -/
theorem C8_witness :
    (swipeableProps ⟨none, none, none, none, none⟩).renderRightActions = none ∧
    rowRun (swipeableProps ⟨none, none, none, none, none⟩)
      [.commitOpen .right 500, .commitOpen .left 90, .commitOpen .right 100000]
      ≠ RowSt.openRight :=
  C8_empty_right_never_open ⟨none, none, none, none, none⟩ (by decide) _

end SwipeActions
